import Mathlib

/-!
Verification development for the graphnet excerpt: the `Model`
persistence/factory layer (src/graphnet/models/model.py) and the
`GraphNeTDataModule` selection/dataloader layer (exercised by
tests/data/test_datamodule.py).

Machine tensors are abstracted as exact integer values; the filesystem is
an association list from path to written content; stateful methods are
embedded as functions returning the updated state.
-/

namespace Graphnet

/-! ## Model persistence (src/graphnet/models/model.py) -/

/-- Device placement of a torch module: host memory or an accelerator. -/
inductive Device where
  | cpu
  | cuda (index : Nat)
deriving DecidableEq

/-- A state dict: mapping from parameter name to (abstracted) tensor value,
as produced by torch `Module.state_dict()`. -/
abbrev StateDict := List (String × Int)

/-- Shallow embedding of a live model object: its learnable parameters
(`state_dict`), its current device placement, and its forward computation,
which depends on the parameters and the input. -/
structure MState where
  stateDict : StateDict
  device : Device
  forwardImpl : StateDict → Int → Int

/-- Embedding of torch `Module.cpu()`: moves the module's tensors to host
memory in place and returns the same (now CPU-resident) module. The updated
module is the value returned; callers thread it as their new state. -/
def MState.toCpu (m : MState) : MState :=
  { m with device := Device.cpu }

/-- The model's forward pass on an input, determined by its parameters. -/
def MState.forward (m : MState) (x : Int) : Int :=
  m.forwardImpl m.stateDict x

/-- Files produced by `Model.save` (full pickled objects), keyed by path. -/
abbrev ModelStore := List (String × MState)

/-- Files produced by `Model.save_state_dict` (parameter mappings only),
keyed by path. -/
abbrev StateStore := List (String × StateDict)

/-- Embedding of `Model.save(path)`: moves the model to CPU via
`self.cpu()` (an in-place move whose result is also what gets serialized)
and writes the full object to `path`. Returns the caller's updated model
together with the updated store. -/
def save (m : MState) (path : String) (fs : ModelStore) : MState × ModelStore :=
  let moved := m.toCpu
  (moved, (path, moved) :: fs)

/-- Embedding of `Model.load(path)`: deserializes the full object stored at
`path`; `none` models the failure when the file is absent. -/
def load (path : String) (fs : ModelStore) : Option MState :=
  List.lookup path fs

/-- Embedding of `Model.save_state_dict(path)`: moves the model to CPU via
`self.cpu()` and writes `state_dict()` of the moved model to `path`. -/
def save_state_dict (m : MState) (path : String) (fs : StateStore) : MState × StateStore :=
  let moved := m.toCpu
  (moved, (path, moved.stateDict) :: fs)

/-- Embedding of torch `Module.load_state_dict` (strict): the incoming
parameter names must coincide with the module's; then the module's
parameters are replaced by the incoming values. -/
def applyStateDict (m : MState) (sd : StateDict) : Except String MState :=
  if sd.map Prod.fst = m.stateDict.map Prod.fst then
    Except.ok { m with stateDict := sd }
  else
    Except.error "Error in loading state_dict: mismatched parameter names"

/-- Embedding of `Model.load_state_dict(path)`: accepts either a file path
(the mapping is loaded from the state-dict store first) or an in-memory
mapping directly, then applies it to the existing model instance. -/
def load_state_dict (m : MState) (src : String ⊕ StateDict) (fs : StateStore) :
    Except String MState :=
  match src with
  | Sum.inl path =>
    match List.lookup path fs with
    | none => Except.error "file not found"
    | some sd => applyStateDict m sd
  | Sum.inr sd => applyStateDict m sd

/-! ## Model factory: `Model.from_config` (src/graphnet/models/model.py)

`from_config` itself is embedded from the source. The `_deserialise`
step it delegates to lives in `graphnet.utilities.config`, outside the
excerpt, and is modelled from the spec below. -/

/-- A value occurring in a `ModelConfig`'s argument mapping.
Modelled from the spec: values may be primitives, nested configuration
documents, or serialized callable (lambda) expressions. -/
inductive ConfigValue where
  | prim (n : Int)
  | str (s : String)
  | lambdaExpr (code : String)
  | nested (className : String) (arguments : List (String × ConfigValue))

/-- A `ModelConfig` document: a class name plus a mapping from
constructor-argument name to value. -/
structure ModelConfig where
  class_name : String
  arguments : List (String × ConfigValue)

/-- A deserialized constructor-argument value: primitives and strings pass
through, trusted lambda expressions become materialized callables, nested
configurations become recursively constructed objects. -/
inductive ArgValue where
  | prim (n : Int)
  | str (s : String)
  | callable (code : String)
  | obj (className : String) (arguments : List (String × ArgValue))

/-- Errors raised by `Model.from_config`: the `assert re.match(...)` on a
module name, the `ValueError` on an untrusted lambda expression, and the
`KeyError` on an unknown class name. -/
inductive FCError where
  | assertionError (module : String)
  | valueError (code : String)
  | keyError (className : String)
deriving DecidableEq

/-- Characters accepted by the character class `[a-zA-Z_]`. -/
def isIdentChar (c : Char) : Bool :=
  (Char.ofNat 97 ≤ c && c ≤ Char.ofNat 122)
    || (Char.ofNat 65 ≤ c && c ≤ Char.ofNat 90)
    || c = Char.ofNat 95

/-- A nonempty run of `[a-zA-Z_]` characters. -/
def identOnly (cs : List Char) : Bool :=
  !cs.isEmpty && cs.all isIdentChar

/-- Python `re.match("^[a-zA-Z_]+$", s) is not None`: in Python, `$` also
matches just before a single newline at the very end of the string, so a
name made of identifier characters followed by one trailing newline is
accepted as well. -/
def pyMatchIdent (s : String) : Bool :=
  identOnly s.toList
    || (match s.toList.getLast? with
        | some c => c = Char.ofNat 10 && identOnly s.toList.dropLast
        | none => false)

/-- The loop over `load_modules` in `from_config`: each name is first
checked with `assert re.match("^[a-zA-Z_]+$", module) is not None`, then
skipped if already in `globals()`, else imported into the global
namespace. Returns the resulting global namespace. -/
def processModules (globalsSoFar : List String) : List String → Except FCError (List String)
  | [] => Except.ok globalsSoFar
  | m :: rest =>
    if pyMatchIdent m then
      if m ∈ globalsSoFar then
        processModules globalsSoFar rest
      else
        processModules (globalsSoFar ++ [m]) rest
    else
      Except.error (FCError.assertionError m)

mutual

/-- Modelled from the spec: `ModelConfig._deserialise` (in
`graphnet.utilities.config`, outside the excerpt) recursively deserializes
a configuration value; callables are only materialized if `trust = True`,
else the presence of a callable expression raises a `ValueError`; nested
configurations become recursively constructed objects. -/
def deserialise (trust : Bool) : ConfigValue → Except FCError ArgValue
  | ConfigValue.prim n => Except.ok (ArgValue.prim n)
  | ConfigValue.str s => Except.ok (ArgValue.str s)
  | ConfigValue.lambdaExpr code =>
    if trust then Except.ok (ArgValue.callable code)
    else Except.error (FCError.valueError code)
  | ConfigValue.nested cn args =>
    match deserialiseArgs trust args with
    | Except.ok r => Except.ok (ArgValue.obj cn r)
    | Except.error e => Except.error e

/-- `traverse_and_apply` of `_deserialise` over an argument mapping:
deserializes each value, propagating the first error. -/
def deserialiseArgs (trust : Bool) : List (String × ConfigValue) →
    Except FCError (List (String × ArgValue))
  | [] => Except.ok []
  | (k, v) :: rest =>
    match deserialise trust v with
    | Except.error e => Except.error e
    | Except.ok a =>
      match deserialiseArgs trust rest with
      | Except.error e => Except.error e
      | Except.ok r => Except.ok ((k, a) :: r)
end

/-- The object returned by `namespace_classes[source.class_name](**arguments)`:
an instance of the named class, constructed with the deserialized
arguments. -/
structure ConstructedModel where
  className : String
  arguments : List (String × ArgValue)

/-- Embedding of `Model.from_config(source, trust, load_modules)`:
defaults `load_modules` to `["torch"]`, validates and imports the listed
modules, deserializes the configuration arguments with the given trust
level, and finally looks up `source.class_name` among the known graphnet
classes (`registry`) and constructs the instance. Failures happen in that
order, each before any object is constructed. -/
def from_config (registry : List String) (globals0 : List String)
    (source : ModelConfig) (trust : Bool) (load_modules : Option (List String)) :
    Except FCError ConstructedModel :=
  let modules := load_modules.getD ["torch"]
  match processModules globals0 modules with
  | Except.error e => Except.error e
  | Except.ok _ =>
    match deserialiseArgs trust source.arguments with
    | Except.error e => Except.error e
    | Except.ok args =>
      if source.class_name ∈ registry then
        Except.ok { className := source.class_name, arguments := args }
      else
        Except.error (FCError.keyError source.class_name)

/-! ## Data module (tests/data/test_datamodule.py)

`GraphNeTDataModule` and `save_selection` live in `graphnet.data.datamodule`
and `graphnet.training.utils`, outside the excerpt; they are modelled from
the spec, with the behavior pinned by the tests in
tests/data/test_datamodule.py. -/

/-- Keyword arguments for a dataloader. Modelled from the spec: batch size,
worker-parallelism count and shuffle flag; an omitted knob falls back to
the loader framework's default (batch size 1, no workers; shuffle defaults
depend on the loader's role). -/
structure LoaderKwargs where
  batchSize : Option Nat := none
  numWorkers : Option Nat := none
  shuffle : Option Bool := none
deriving DecidableEq

/-- A built dataloader over a slice of events: the identifiers of its
underlying dataset, its effective batch size, and its shuffle flag. -/
structure Loader where
  dataset : List Nat
  batchSize : Nat
  shuffle : Bool
deriving DecidableEq

/-- Number of batches the loader reports (`len(dataloader)`): the dataset
length divided by the batch size, rounding up. -/
def Loader.numBatches (l : Loader) : Nat :=
  (l.dataset.length + l.batchSize - 1) / l.batchSize

/-- Modelled from the spec: `GraphNeTDataModule` (in
`graphnet.data.datamodule`, outside the excerpt) holds the event store's
identifiers, an optional combined train+validation selection (defaulting to
all events), an optional test selection, and per-loader keyword
arguments; validation and test kwargs are independently configurable and
default to the framework defaults rather than inheriting the training
kwargs. -/
structure GraphNeTDataModule where
  allEvents : List Nat
  selection : Option (List Nat) := none
  testSelection : Option (List Nat) := none
  trainKwargs : LoaderKwargs := {}
  valKwargs : LoaderKwargs := {}
  testKwargs : LoaderKwargs := {}
deriving DecidableEq

/-- The combined train+validation selection: the supplied selection, or all
events of the store when none was supplied. -/
def GraphNeTDataModule.combined (dm : GraphNeTDataModule) : List Nat :=
  dm.selection.getD dm.allEvents

/-- Modelled from the spec: the deterministic internal split policy reserves
a tenth of the combined selection (rounded up) for validation. -/
def valCount (n : Nat) : Nat :=
  (n + 9) / 10

/-- The validation slice of the combined selection. -/
def GraphNeTDataModule.valSelection (dm : GraphNeTDataModule) : List Nat :=
  dm.combined.take (valCount dm.combined.length)

/-- The training slice of the combined selection: the rest. -/
def GraphNeTDataModule.trainSelection (dm : GraphNeTDataModule) : List Nat :=
  dm.combined.drop (valCount dm.combined.length)

/-- Modelled from the spec: `train_dataloader()` builds a loader over the
training slice with the caller-supplied training kwargs; the training
loader defaults to shuffled. -/
def GraphNeTDataModule.train_dataloader (dm : GraphNeTDataModule) : Loader :=
  { dataset := dm.trainSelection
    batchSize := dm.trainKwargs.batchSize.getD 1
    shuffle := dm.trainKwargs.shuffle.getD true }

/-- Modelled from the spec: `val_dataloader()` builds a loader over the
validation slice with the validation kwargs only; it does not inherit the
training kwargs, and defaults to non-shuffled. -/
def GraphNeTDataModule.val_dataloader (dm : GraphNeTDataModule) : Loader :=
  { dataset := dm.valSelection
    batchSize := dm.valKwargs.batchSize.getD 1
    shuffle := dm.valKwargs.shuffle.getD false }

/-- Modelled from the spec: `test_dataloader()` fails with a clear error if
no test selection was provided at construction time; otherwise it builds a
non-shuffled loader over exactly the test selection. -/
def GraphNeTDataModule.test_dataloader (dm : GraphNeTDataModule) : Except String Loader :=
  match dm.testSelection with
  | none => Except.error "Unable to build test dataloader: no test selection was provided"
  | some ts =>
    Except.ok
      { dataset := ts
        batchSize := dm.testKwargs.batchSize.getD 1
        shuffle := dm.testKwargs.shuffle.getD false }

/-! ## Selection files (`save_selection` in graphnet.training.utils) -/

/-- A plain-text filesystem: mapping from path to written content. -/
abbrev TextStore := List (String × String)

/-- Modelled from the spec: `save_selection(selection, path)` (in
`graphnet.training.utils`, outside the excerpt) writes the event
identifiers to a plain-text file at `path` as comma-separated integers on
one line. -/
def save_selection (selection : List Nat) (path : String) (fs : TextStore) : TextStore :=
  (path, String.intercalate "," (selection.map toString) ++ "\n") :: fs

/-- Whitespace characters removed by Python `str.strip()`. -/
def isPySpace (c : Char) : Bool :=
  c = Char.ofNat 32 || c = Char.ofNat 9 || c = Char.ofNat 10
    || c = Char.ofNat 13 || c = Char.ofNat 11 || c = Char.ofNat 12

/-- Python `str.strip()`: removes leading and trailing whitespace. -/
def pyStrip (s : String) : String :=
  String.mk (((s.toList.dropWhile isPySpace).reverse.dropWhile isPySpace).reverse)

/-! ## Concrete fixtures mirroring tests/data/test_datamodule.py -/

/-- The data module of `test_single_dataset_without_selections`: only
training dataloader kwargs (batch size 2, one worker), no selections. -/
def dmNoTest : GraphNeTDataModule :=
  { allEvents := List.range 100
    trainKwargs := { batchSize := some 2, numWorkers := some 1 } }

/-- The data module of `test_single_dataset_with_selections`: the first 10
events held out for test, the remaining 90 as the combined selection. -/
def dmWithSel : GraphNeTDataModule :=
  { allEvents := List.range 100
    selection := some ((List.range 100).drop 10)
    testSelection := some ((List.range 100).take 10)
    trainKwargs := { batchSize := some 2, numWorkers := some 1 } }

/-- A data module whose training batch size coincides with the loader
default of 1. -/
def dmTrainBsOne : GraphNeTDataModule :=
  { allEvents := List.range 20
    trainKwargs := { batchSize := some 1, numWorkers := some 1 } }

/-- A data module whose training batch size (20) covers its whole training
slice in one batch. -/
def dmBigBatch : GraphNeTDataModule :=
  { allEvents := List.range 20
    selection := some (List.range 20)
    trainKwargs := { batchSize := some 20 } }

/-- A trained model resident on an accelerator device. -/
def mCudaModel : MState :=
  { stateDict := [("weight", 3), ("bias", 1)]
    device := Device.cuda 0
    forwardImpl := fun sd x => sd.foldl (fun acc kv => acc + kv.2 * x) 0 }

/-- A freshly constructed, architecture-compatible model: same parameter
names, untrained values. -/
def mFresh : MState :=
  { stateDict := [("weight", 0), ("bias", 0)]
    device := Device.cpu
    forwardImpl := fun sd x => sd.foldl (fun acc kv => acc + kv.2 * x) 0 }

/-- A configuration holding a serialized lambda-expression argument. -/
def cfgLambda : ModelConfig :=
  { class_name := "StandardModel"
    arguments := [("fn", ConfigValue.lambdaExpr "lambda x: x")] }

/-- A configuration with no arguments. -/
def cfgPlain : ModelConfig :=
  { class_name := "StandardModel", arguments := [] }

/-! ## Theorems -/

/-! ### Lemmas about the factory -/

theorem processModules_ok_of_all_match (ms : List String)
    (h : ∀ m ∈ ms, pyMatchIdent m = true) :
    ∀ g, ∃ g2, processModules g ms = Except.ok g2 := by
  induction ms with
  | nil => intro g; exact ⟨g, rfl⟩
  | cons m rest ih =>
    intro g
    have hm : pyMatchIdent m = true := h m (List.mem_cons_self m rest)
    have hrest : ∀ x ∈ rest, pyMatchIdent x = true :=
      fun x hx => h x (List.mem_cons_of_mem m hx)
    by_cases hg : m ∈ g
    · obtain ⟨g2, hg2⟩ := ih hrest g
      exact ⟨g2, by simp [processModules, hm, hg, hg2]⟩
    · obtain ⟨g2, hg2⟩ := ih hrest (g ++ [m])
      exact ⟨g2, by simp [processModules, hm, hg, hg2]⟩

theorem processModules_first_bad (ms : List String) (m0 : String) :
    ms.find? (fun m => !pyMatchIdent m) = some m0 →
    ∀ g, processModules g ms = Except.error (FCError.assertionError m0) := by
  induction ms with
  | nil => intro h; simp [List.find?] at h
  | cons m rest ih =>
    intro h g
    cases hm : pyMatchIdent m with
    | false =>
      have hm0 : m = m0 := by simpa [List.find?, hm] using h
      subst hm0
      simp [processModules, hm]
    | true =>
      have h2 : rest.find? (fun x => !pyMatchIdent x) = some m0 := by
        simpa [List.find?, hm] using h
      by_cases hg : m ∈ g
      · simp [processModules, hm, hg, ih h2 g]
      · simp [processModules, hm, hg, ih h2 (g ++ [m])]

mutual

theorem deserialise_true_ok (v : ConfigValue) : ∃ a, deserialise true v = Except.ok a := by
  cases v with
  | prim n => exact ⟨ArgValue.prim n, rfl⟩
  | str s => exact ⟨ArgValue.str s, rfl⟩
  | lambdaExpr code => exact ⟨ArgValue.callable code, rfl⟩
  | nested cn args =>
    obtain ⟨r, hr⟩ := deserialiseArgs_true_ok args
    exact ⟨ArgValue.obj cn r, by simp [deserialise, hr]⟩

theorem deserialiseArgs_true_ok (l : List (String × ConfigValue)) :
    ∃ r, deserialiseArgs true l = Except.ok r := by
  cases l with
  | nil => exact ⟨[], rfl⟩
  | cons kv rest =>
    obtain ⟨k, v⟩ := kv
    obtain ⟨a, ha⟩ := deserialise_true_ok v
    obtain ⟨r, hr⟩ := deserialiseArgs_true_ok rest
    exact ⟨(k, a) :: r, by simp [deserialiseArgs, ha, hr]⟩

end

mutual

theorem deserialise_error_is_valueError (t : Bool) (v : ConfigValue) (e : FCError)
    (h : deserialise t v = Except.error e) : ∃ c, e = FCError.valueError c := by
  cases v with
  | prim n => simp [deserialise] at h
  | str s => simp [deserialise] at h
  | lambdaExpr code =>
    cases t with
    | true => simp [deserialise] at h
    | false =>
      have : FCError.valueError code = e := by simpa [deserialise] using h
      exact ⟨code, this.symm⟩
  | nested cn args =>
    cases hd : deserialiseArgs t args with
    | ok r => simp [deserialise, hd] at h
    | error e2 =>
      have h2 := deserialiseArgs_error_is_valueError t args e2 hd
      have : e2 = e := by simpa [deserialise, hd] using h
      exact this ▸ h2

theorem deserialiseArgs_error_is_valueError (t : Bool) (l : List (String × ConfigValue))
    (e : FCError) (h : deserialiseArgs t l = Except.error e) :
    ∃ c, e = FCError.valueError c := by
  cases l with
  | nil => simp [deserialiseArgs] at h
  | cons kv rest =>
    obtain ⟨k, v⟩ := kv
    cases hv : deserialise t v with
    | error e2 =>
      have h2 := deserialise_error_is_valueError t v e2 hv
      have : e2 = e := by simpa [deserialiseArgs, hv] using h
      exact this ▸ h2
    | ok a =>
      cases hr : deserialiseArgs t rest with
      | error e2 =>
        have h2 := deserialiseArgs_error_is_valueError t rest e2 hr
        have : e2 = e := by simpa [deserialiseArgs, hv, hr] using h
        exact this ▸ h2
      | ok r => simp [deserialiseArgs, hv, hr] at h

end

theorem deserialiseArgs_lookup_lambda_fails (k c : String)
    (l : List (String × ConfigValue))
    (h : List.lookup k l = some (ConfigValue.lambdaExpr c)) :
    ∃ c2, deserialiseArgs false l = Except.error (FCError.valueError c2) := by
  induction l with
  | nil => simp [List.lookup] at h
  | cons kv rest ih =>
    obtain ⟨k1, v⟩ := kv
    rw [List.lookup] at h
    cases hbeq : (k == k1) with
    | true =>
      rw [hbeq] at h
      have hv : v = ConfigValue.lambdaExpr c := by simpa using h
      exact ⟨c, by simp [deserialiseArgs, hv, deserialise]⟩
    | false =>
      rw [hbeq] at h
      cases hv : deserialise false v with
      | error e =>
        obtain ⟨c3, hc3⟩ := deserialise_error_is_valueError false v e hv
        exact ⟨c3, by simp [deserialiseArgs, hv, hc3]⟩
      | ok a =>
        obtain ⟨c2, hc2⟩ := ih h
        exact ⟨c2, by simp [deserialiseArgs, hv, hc2]⟩

theorem deserialiseArgs_lookup_ok (t : Bool) (k : String)
    (l : List (String × ConfigValue)) (r : List (String × ArgValue)) (v : ConfigValue)
    (hr : deserialiseArgs t l = Except.ok r) (hl : List.lookup k l = some v) :
    ∃ a, deserialise t v = Except.ok a ∧ List.lookup k r = some a := by
  induction l generalizing r with
  | nil => simp [List.lookup] at hl
  | cons kv rest ih =>
    obtain ⟨k1, v1⟩ := kv
    cases hv1 : deserialise t v1 with
    | error e => simp [deserialiseArgs, hv1] at hr
    | ok a1 =>
      cases hrest : deserialiseArgs t rest with
      | error e => simp [deserialiseArgs, hv1, hrest] at hr
      | ok r1 =>
        have hr2 : r = (k1, a1) :: r1 := by
          have := hr
          simp [deserialiseArgs, hv1, hrest] at this
          exact this.symm
        subst hr2
        rw [List.lookup] at hl
        cases hbeq : (k == k1) with
        | true =>
          rw [hbeq] at hl
          have hveq : v1 = v := by simpa using hl
          subst hveq
          exact ⟨a1, hv1, by simp [List.lookup, hbeq]⟩
        | false =>
          rw [hbeq] at hl
          obtain ⟨a, ha, ha2⟩ := ih r1 hrest hl
          exact ⟨a, ha, by simp [List.lookup, hbeq, ha2]⟩

/-- C1: a `GraphNeTDataModule` constructed without a test selection fails
with a clear error on every call to `test_dataloader()`; it never returns a
loader. -/
theorem test_dataloader_none_selection_errors (dm : GraphNeTDataModule)
    (h : dm.testSelection = none) :
    dm.test_dataloader
      = Except.error "Unable to build test dataloader: no test selection was provided" := by
  simp [GraphNeTDataModule.test_dataloader, h]

/-- C1 witness: the test's data module (training kwargs only). -/
theorem test_dataloader_none_selection_errors_witness :
    dmNoTest.test_dataloader
      = Except.error "Unable to build test dataloader: no test selection was provided" :=
  test_dataloader_none_selection_errors dmNoTest rfl

/-- C4: `Model.save` followed by `Model.load` at the same path reconstructs
exactly the saved (CPU-moved) model, whose parameters and forward-pass
outputs on every input agree with the original model's. -/
theorem save_load_roundtrip (m : MState) (p : String) (fs : ModelStore) :
    load p (save m p fs).2 = some (save m p fs).1
    ∧ (save m p fs).1.stateDict = m.stateDict
    ∧ ∀ x, (save m p fs).1.forward x = m.forward x := by
  refine ⟨?_, rfl, fun x => rfl⟩
  simp [load, save, List.lookup]

/-- C5: `save_state_dict` followed by `load_state_dict` on a freshly
constructed, architecture-compatible model (same parameter names) leaves it
with parameter tensors identical to the original's; this holds both for the
file-path variant and for the in-memory-mapping variant. -/
theorem state_dict_roundtrip (m m2 : MState) (p : String) (fs : StateStore)
    (h : m2.stateDict.map Prod.fst = m.stateDict.map Prod.fst) :
    (∃ r, load_state_dict m2 (Sum.inl p) (save_state_dict m p fs).2 = Except.ok r
        ∧ r.stateDict = m.stateDict)
    ∧ (∃ r, load_state_dict m2 (Sum.inr m.stateDict) fs = Except.ok r
        ∧ r.stateDict = m.stateDict) := by
  constructor
  · refine ⟨{ m2 with stateDict := m.stateDict }, ?_, rfl⟩
    simp [load_state_dict, save_state_dict, MState.toCpu, List.lookup, applyStateDict, h]
  · refine ⟨{ m2 with stateDict := m.stateDict }, ?_, rfl⟩
    simp [load_state_dict, applyStateDict, h]

/-- C5 witness: a trained accelerator-resident model restored into a fresh
compatible model through a state-dict file and through a mapping. -/
theorem state_dict_roundtrip_witness :
    (∃ r, load_state_dict mFresh (Sum.inl "model_state.pth")
          (save_state_dict mCudaModel "model_state.pth" []).2 = Except.ok r
        ∧ r.stateDict = mCudaModel.stateDict)
    ∧ (∃ r, load_state_dict mFresh (Sum.inr mCudaModel.stateDict) [] = Except.ok r
        ∧ r.stateDict = mCudaModel.stateDict) :=
  state_dict_roundtrip mCudaModel mFresh "model_state.pth" [] rfl

/-- C10: both `Model.save` and `Model.save_state_dict` call `self.cpu()`,
which moves the live model to host memory in place: after either call the
caller's model resides on the CPU device, no longer on its previous
(non-CPU) device. -/
theorem save_moves_model_to_cpu (m : MState) (p : String) (fs : ModelStore)
    (ss : StateStore) (h : m.device ≠ Device.cpu) :
    ((save m p fs).1.device = Device.cpu ∧ (save m p fs).1.device ≠ m.device)
    ∧ ((save_state_dict m p ss).1.device = Device.cpu
        ∧ (save_state_dict m p ss).1.device ≠ m.device) := by
  refine ⟨⟨rfl, ?_⟩, ⟨rfl, ?_⟩⟩ <;>
    simpa [save, save_state_dict, MState.toCpu] using Ne.symm h

/-- C10 witness: a model on an accelerator device is on the CPU after
either save operation. -/
theorem save_moves_model_to_cpu_witness :
    ((save mCudaModel "m.pth" []).1.device = Device.cpu
        ∧ (save mCudaModel "m.pth" []).1.device ≠ mCudaModel.device)
    ∧ ((save_state_dict mCudaModel "m.pth" []).1.device = Device.cpu
        ∧ (save_state_dict mCudaModel "m.pth" []).1.device ≠ mCudaModel.device) :=
  save_moves_model_to_cpu mCudaModel "m.pth" [] [] (by decide)

/-- C9: `save_selection([1,2,3,4,5], path)` writes a file at `path` whose
stripped contents equal the literal string of comma-separated identifiers. -/
theorem save_selection_file_contents :
    ∃ c, List.lookup "selection.csv"
          (save_selection [1, 2, 3, 4, 5] "selection.csv" []) = some c
        ∧ pyStrip c = "1,2,3,4,5" :=
  ⟨"1,2,3,4,5\n", by decide, by decide⟩

/-- C3: when a combined selection and a test selection are supplied, the
train and validation datasets partition the combined selection by length,
and the test dataset has exactly the test selection's length. -/
theorem split_selection_lengths (dm : GraphNeTDataModule) (ts : List Nat)
    (h : dm.testSelection = some ts) :
    dm.train_dataloader.dataset.length + dm.val_dataloader.dataset.length
        = dm.combined.length
    ∧ ∃ l, dm.test_dataloader = Except.ok l ∧ l.dataset.length = ts.length := by
  constructor
  · simp [GraphNeTDataModule.train_dataloader, GraphNeTDataModule.val_dataloader,
      GraphNeTDataModule.trainSelection, GraphNeTDataModule.valSelection]
    omega
  · refine ⟨{ dataset := ts, batchSize := dm.testKwargs.batchSize.getD 1, shuffle := dm.testKwargs.shuffle.getD false }, ?_, rfl⟩
    simp [GraphNeTDataModule.test_dataloader, h]

/-- C3 witness: the 90/10 split of the selections test. -/
theorem split_selection_lengths_witness :
    dmWithSel.train_dataloader.dataset.length + dmWithSel.val_dataloader.dataset.length
        = dmWithSel.combined.length
    ∧ ∃ l, dmWithSel.test_dataloader = Except.ok l
        ∧ l.dataset.length = ((List.range 100).take 10).length :=
  split_selection_lengths dmWithSel ((List.range 100).take 10) rfl

/-- C6 counterexample: a data module constructed with only training
dataloader kwargs whose batch size is 1 has equal training and validation
batch sizes, refuting the claimed inequality. -/
theorem val_batch_size_counterexample :
    dmTrainBsOne.valKwargs = {}
    ∧ dmTrainBsOne.train_dataloader.batchSize = dmTrainBsOne.val_dataloader.batchSize :=
  ⟨rfl, rfl⟩

/-- C6 amended: with no validation kwargs supplied, the validation batch
size is the framework default 1 — never the training batch size — so the
two differ whenever the training batch size is not 1 (as in the test, which
uses 2); and the validation batch size is independently configurable. -/
theorem val_batch_size_independent (dm : GraphNeTDataModule) (b : Nat)
    (h : dm.valKwargs = {}) :
    dm.val_dataloader.batchSize = 1
    ∧ (dm.train_dataloader.batchSize ≠ 1
        → dm.train_dataloader.batchSize ≠ dm.val_dataloader.batchSize)
    ∧ ({ dm with valKwargs := { batchSize := some b } } : GraphNeTDataModule).val_dataloader.batchSize = b := by
  refine ⟨?_, ?_, rfl⟩
  · simp [GraphNeTDataModule.val_dataloader, h]
  · intro hne
    simpa [GraphNeTDataModule.val_dataloader, h] using hne

/-- C6 witness: the test's data module (training batch size 2). -/
theorem val_batch_size_independent_witness :
    dmNoTest.val_dataloader.batchSize = 1
    ∧ (dmNoTest.train_dataloader.batchSize ≠ 1
        → dmNoTest.train_dataloader.batchSize ≠ dmNoTest.val_dataloader.batchSize)
    ∧ ({ dmNoTest with valKwargs := { batchSize := some 7 } } : GraphNeTDataModule).val_dataloader.batchSize = 7 :=
  val_batch_size_independent dmNoTest 7 rfl

/-- C7 counterexample: with a training batch size of 20 over a 20-event
combined selection, the training loader reports 1 batch and the validation
loader 2, refuting the claimed strict inequality for arbitrary loader
configurations. -/
theorem train_batches_counterexample :
    ¬ dmBigBatch.val_dataloader.numBatches < dmBigBatch.train_dataloader.numBatches := by
  decide

/-- C7 amended: under the test's configuration — training batch size 2,
default validation kwargs — and a combined selection of at least 4 events,
the training loader reports strictly more batches than the validation
loader. -/
theorem train_batches_exceed_val (dm : GraphNeTDataModule)
    (h1 : dm.trainKwargs.batchSize = some 2) (h2 : dm.valKwargs = {})
    (h3 : 4 ≤ dm.combined.length) :
    dm.val_dataloader.numBatches < dm.train_dataloader.numBatches := by
  simp [GraphNeTDataModule.val_dataloader, GraphNeTDataModule.train_dataloader,
    Loader.numBatches, GraphNeTDataModule.valSelection,
    GraphNeTDataModule.trainSelection, h1, h2, valCount]
  omega

/-- C7 witness: the selections test's data module (90-event combined
selection, training batch size 2). -/
theorem train_batches_exceed_val_witness :
    dmWithSel.val_dataloader.numBatches < dmWithSel.train_dataloader.numBatches :=
  train_batches_exceed_val dmWithSel rfl rfl (by decide)

/-- C2: on a configuration containing a lambda-expression argument,
`from_config` with `trust = false` raises a `ValueError` before any object
is constructed (the result is an error, never a constructed model), while
`trust = true` succeeds and the constructed object's corresponding argument
is the materialized callable. -/
theorem from_config_lambda_trust (registry globals0 : List String)
    (cfg : ModelConfig) (k c : String)
    (hl : List.lookup k cfg.arguments = some (ConfigValue.lambdaExpr c))
    (hreg : cfg.class_name ∈ registry) :
    (∃ e, from_config registry globals0 cfg false none
        = Except.error (FCError.valueError e))
    ∧ (∃ m, from_config registry globals0 cfg true none = Except.ok m
        ∧ List.lookup k m.arguments = some (ArgValue.callable c)) := by
  obtain ⟨g2, hg2⟩ :=
    processModules_ok_of_all_match ["torch"] (by decide) globals0
  constructor
  · obtain ⟨c2, hc2⟩ := deserialiseArgs_lookup_lambda_fails k c cfg.arguments hl
    exact ⟨c2, by simp [from_config, hg2, hc2]⟩
  · obtain ⟨r, hrr⟩ := deserialiseArgs_true_ok cfg.arguments
    obtain ⟨a, ha, ha2⟩ := deserialiseArgs_lookup_ok true k cfg.arguments r _ hrr hl
    have haa : a = ArgValue.callable c := by
      have : (Except.ok (ArgValue.callable c) : Except FCError ArgValue) = Except.ok a := by
        simpa [deserialise] using ha
      exact (by simpa using this : ArgValue.callable c = a).symm
    subst haa
    exact ⟨{ className := cfg.class_name, arguments := r },
      by simp [from_config, hg2, hrr, hreg], ha2⟩

/-- C2 witness: a configuration with a lambda argument is rejected
untrusted and materialized trusted. -/
theorem from_config_lambda_trust_witness :
    (∃ e, from_config ["StandardModel"] [] cfgLambda false none
        = Except.error (FCError.valueError e))
    ∧ (∃ m, from_config ["StandardModel"] [] cfgLambda true none = Except.ok m
        ∧ List.lookup "fn" m.arguments = some (ArgValue.callable "lambda x: x")) :=
  from_config_lambda_trust ["StandardModel"] [] cfgLambda "fn" "lambda x: x" rfl
    (by simp [cfgLambda])

/-- C8 counterexample: the module name consisting of "torch" followed by a
trailing newline is not made of ASCII letters and underscores only, yet
`from_config` accepts it — Python's `re.match("^[a-zA-Z_]+$", ...)` also
matches just before a single newline at the end of the string — and
construction proceeds, refuting the claimed failure. -/
theorem load_modules_newline_counterexample :
    from_config ["StandardModel"] [] cfgPlain false (some ["torch\n"])
      = Except.ok { className := "StandardModel", arguments := [] }
    ∧ identOnly "torch\n".toList = false :=
  ⟨rfl, by decide⟩

/-- C8 amended: a `load_modules` name is accepted exactly when it matches
Python's `re.match("^[a-zA-Z_]+$", ...)`, i.e. ASCII letters and
underscores optionally followed by one trailing newline; when some name
fails this check, `from_config` fails with an assertion error naming the
first such module, before importing it and before constructing any
object. -/
theorem load_modules_invalid_name_errors (registry globals0 : List String)
    (cfg : ModelConfig) (trust : Bool) (modules : List String) (m0 : String)
    (h : modules.find? (fun m => !pyMatchIdent m) = some m0) :
    from_config registry globals0 cfg trust (some modules)
      = Except.error (FCError.assertionError m0) := by
  have hpm := processModules_first_bad modules m0 h globals0
  simp [from_config, hpm]

/-- C8 witness: a malformed module name after a well-formed one fails with
an assertion error naming it. -/
theorem load_modules_invalid_name_errors_witness :
    from_config ["StandardModel"] [] cfgPlain true (some ["torch", "numpy!"])
      = Except.error (FCError.assertionError "numpy!") :=
  load_modules_invalid_name_errors ["StandardModel"] [] cfgPlain true
    ["torch", "numpy!"] "numpy!" (by decide)

end Graphnet
